import Mathlib

/-!
Shallow embedding of the pybel-web repository (BEL Commons web portal):
the background worker tasks (`celery_worker.py`), the administrative model
views (`admin_utils.py`, `admin_service.py`, `application_utils.py`) and the
main web routes (`main_service.py`).  External library calls (pybel
serialization, hashlib, flask-mail, the BEL parser, graph union, statistical
scoring) are modelled as abstract parameters collected in an `Env` record;
everything written in this repository is transcribed faithfully.
-/

namespace PyBELWeb

/-- A user row (`pybel_web.models.User`): only the fields this code reads.
`isAdmin` models both spellings `user.admin` and `user.is_admin` used in the
source; `isScai` models `user.is_scai`. -/
structure User where
  id : Nat
  email : String
  isAuthenticated : Bool
  isAdmin : Bool
  isScai : Bool
deriving Repr, DecidableEq

/-- A parsed BEL graph as far as `celery_worker.py` inspects it: its name,
version, document metadata dictionary, and its serialization `to_bytes(graph)`
(bytes modelled as `List Nat`).  An absent name or version is modelled by the
empty string (Python falsiness under `if not graph.name`). -/
structure Graph where
  name : String
  version : String
  document : List (String × String)
  bytes : List Nat
deriving Repr, DecidableEq

/-- The report relationship hanging off a stored network
(`network.report`), giving its owning user and public flag. -/
structure NetReport where
  user : User
  public : Bool
deriving Repr, DecidableEq

/-- A stored network row (`pybel.manager.models.Network`): id, name, version,
the stored serialized bytes `blob`, the optional back-reference `report`, and
the list of users granted rights (`network.users`). -/
structure Network where
  id : Nat
  name : String
  version : String
  blob : List Nat
  report : Option NetReport
  users : List User
deriving Repr, DecidableEq

/-- An upload report row (`pybel_web.models.Report`): the fields
`celery_worker.async_parser` reads and writes. -/
structure Report where
  id : Nat
  user : User
  source_name : String
  message : Option String
  infer_origin : Bool
  time : Option Nat
deriving Repr, DecidableEq

/-- An outgoing email (flask-mail `send_message`): subject, recipients, body. -/
structure Email where
  subject : String
  recipients : List String
  body : String
deriving Repr, DecidableEq

/-- The database rows touched by the parse task: the network table and the
report row being processed. -/
structure Db where
  networks : List Network
  report : Report
deriving Repr, DecidableEq

/-- An ORM session over the worker database: the last committed snapshot and
the pending (in-memory) state.  `commit` makes pending durable, `rollback`
discards pending changes. -/
structure Session where
  committed : Db
  pending : Db
deriving Repr, DecidableEq

def Session.commit (s : Session) : Session :=
  { committed := s.pending, pending := s.pending }

def Session.rollback (s : Session) : Session :=
  { committed := s.committed, pending := s.committed }

def Session.setMessage (s : Session) (body : String) : Session :=
  { s with pending := { s.pending with report := { s.pending.report with message := some body } } }

/-- Summary dictionary produced by the external `make_graph_summary`
(abstract). -/
abbrev GraphSummary := List (String × Nat)

/-- Query parameters as stored by a Query record: network selection plus the
transformation pipeline (the content of `pybel_tools.query.Query`, abstract). -/
structure QueryParams where
  networkIds : List Nat
  pipeline : List String
deriving Repr, DecidableEq

/-- Submitted HTML form data. -/
abbrev Form := List (String × String)

/-- Overlap data computed by the external `calculate_overlap_dict` (abstract). -/
abbrev OverlapData := List (String × Nat)

/-- Results of calls into external libraries (pybel, hashlib, pybel_tools,
the missing `pybel_web.utils` helpers) that the embedded routines invoke.
Each field stands for one external function applied by the source code. -/
structure Env where
  sha1hex : List Nat → List Nat
  toBytesNetwork : Network → List Nat
  showNetwork : Network → String
  showUser : User → String
  showGraph : Graph → String
  makeGraphSummary : Graph → GraphSummary
  fillOutReport : Network → Report → GraphSummary → Report
  elapsed : Nat
  dumps : List Nat → List Nat
  union : List Graph → Graph
  asBel : Network → Graph
  toBelLines : Graph → List String
  pybelDataDir : String
  formToParams : Form → QueryParams
  run : QueryParams → List Network → Graph
  overlap : Graph → Graph → OverlapData
  fromBytes : List Nat → Option Graph

/-- pybel_web.constants: the integrity message template. -/
def integrity_message (name version : String) : String :=
  "A graph with the same name (" ++ name ++ ") and version (" ++ version ++
  ") already exists. If there have been changes since the last version, try bumping the version number."

def CHARLIE_EMAIL : String := "charles.hoyt@scai.fraunhofer.de"

def DANIEL_EMAIL : String := "daniel.domingo.fernandez@scai.fraunhofer.de"

/-- pybel.constants metadata keys (external constants, values by key name). -/
def METADATA_DESCRIPTION : String := "description"

def METADATA_CONTACT : String := "contact"

def METADATA_LICENSES : String := "licenses"

/-- celery_worker.dumb_belief_stuff: placeholder metadata values rejected on
upload obtained directly from the source dictionary. -/
def dumb_belief_stuff : List (String × List String) :=
  [(METADATA_DESCRIPTION, ["Document description"]),
   (METADATA_CONTACT, ["your@email.com"]),
   (METADATA_LICENSES, ["Document license"])]

/-- Membership test for the `problem` dict comprehension of `async_parser`:
a document item whose key is in `dumb_belief_stuff` and whose value is in the
corresponding set. -/
def isDumbDefault (kv : String × String) : Bool :=
  match dumb_belief_stuff.find? (fun p => p.fst == kv.fst) with
  | some p => p.snd.contains kv.snd
  | none => false

/-- Rendering of the Python `problem` dict in the rejection message (repr
modelled without quotation marks; only its presence matters to the claims). -/
def renderProblem (problem : List (String × String)) : String :=
  "\x7b" ++ String.intercalate ", " (problem.map (fun kv => kv.fst ++ ": " ++ kv.snd)) ++ "\x7d"

/-- Outcome of the external call `report.parse_graph(manager=manager)` inside
the first try of `async_parser`: one constructor per except-clause plus
success. -/
inductive ParseOutcome where
  | connectionError
  | inconsistentDefinition (definition : String) (lineNumber : Nat)
  | otherError (e : String)
  | success (graph : Graph)
deriving Repr, DecidableEq

/-- Outcome of the enrichment block (`add_canonical_names` ... `
enrich_pubmed_citations`): the possibly-mutated graph, tagged by which
except-clause (if any) fired. -/
inductive EnrichOutcome where
  | ok (graph : Graph)
  | dbError (graph : Graph)
  | otherError (graph : Graph)
deriving Repr, DecidableEq

def EnrichOutcome.graph : EnrichOutcome → Graph
  | .ok g => g
  | .dbError g => g
  | .otherError g => g

/-- Outcome of the external call `manager.insert_graph(graph, ...)`:
the inserted network row, or one of the caught exception classes. -/
inductive InsertOutcome where
  | inserted (network : Network)
  | integrityError
  | operationalError
  | otherError (e : String)
deriving Repr, DecidableEq

/-- Return value of the parse task: a status message string, the new
id of the new network, the literal -1, or an uncaught exception propagating. -/
inductive Ret where
  | msg (s : String)
  | netId (n : Nat)
  | failCode
  | exn (e : String)
deriving Repr, DecidableEq

/-- Observable result of one run of the parse task: return value, final
committed database state, emails sent, and whether `insert_graph` was
reached. -/
structure TaskOut where
  ret : Ret
  db : Db
  emails : List Email
  insertAttempted : Bool
deriving Repr, DecidableEq

/-- celery_worker.async_parser local `make_mail`: sends an email to the
report user only when the mail extension is configured. -/
def make_mail (mailConfigured : Bool) (userEmail : String) (subject body : String)
    (emails : List Email) : List Email :=
  if mailConfigured then
    emails ++ [{ subject := subject, recipients := [userEmail], body := body }]
  else
    emails

/-- celery_worker.async_parser local `finish_parsing`: emails the report
user (when mail is configured), stores the message on the report, commits,
and returns the message. -/
def finish_parsing (mailConfigured : Bool) (sess : Session) (emails : List Email)
    (insertAttempted : Bool) (subject body : String) : TaskOut :=
  let emails := make_mail mailConfigured sess.pending.report.user.email subject body emails
  let sess := (sess.setMessage body).commit
  { ret := .msg body, db := sess.committed, emails := emails, insertAttempted := insertAttempted }

/-- celery_worker.async_parser (Python `async_parser`, the `pybelparser`
task), for an existing report row `db.report`.  External call results
(parse, enrichment, insertion, `fill_out_report` failure) are passed as
inputs; paths that raise uncaught Python exceptions yield `Ret.exn`. -/
def asyncParser (env : Env) (mailConfigured : Bool) (db : Db)
    (parse : ParseOutcome) (enrich : EnrichOutcome) (insert : InsertOutcome)
    (fillError : Option String) : TaskOut :=
  let report := db.report
  let source_name := report.source_name
  let sess : Session := { committed := db, pending := db }
  match parse with
  | .connectionError =>
      finish_parsing mailConfigured sess [] false ("Parsing Failed for " ++ source_name)
        "Connection to resource could not be established."
  | .inconsistentDefinition d ln =>
      finish_parsing mailConfigured sess [] false ("Parsing Failed for " ++ source_name)
        ("Parsing failed for " ++ source_name ++ " because " ++ d ++
          " was redefined on line " ++ toString ln ++ ".")
  | .otherError e =>
      finish_parsing mailConfigured sess [] false ("Parsing Failed for " ++ source_name)
        ("Parsing failed for " ++ source_name ++ " from a general error: " ++ e)
  | .success graph =>
    if graph.name = "" then
      finish_parsing mailConfigured sess [] false ("Parsing Failed for " ++ source_name)
        ("Parsing failed for " ++ source_name ++ " because SET DOCUMENT Name was missing.")
    else if graph.version = "" then
      finish_parsing mailConfigured sess [] false ("Parsing Failed for " ++ source_name)
        ("Parsing failed for " ++ source_name ++ " because SET DOCUMENT Version was missing.")
    else
      let problem := graph.document.filter isDumbDefault
      if problem.isEmpty = false then
        finish_parsing mailConfigured sess [] false ("Rejected " ++ source_name)
          (source_name ++ " was rejected because it has \"default\" metadata: " ++
            renderProblem problem)
      else
        match db.networks.find? (fun n => n.name == graph.name && n.version == graph.version) with
        | some network =>
          let message := integrity_message graph.name graph.version
          match network.report with
          | none =>
            { ret := .exn "AttributeError", db := db, emails := [], insertAttempted := false }
          | some nrep =>
            if nrep.user = report.user then
              finish_parsing mailConfigured sess [] false
                ("Uploading Failed for " ++ source_name) message
            else if env.sha1hex network.blob ≠ env.sha1hex (env.toBytesNetwork network) then
              if mailConfigured = false then
                { ret := .exn "KeyError: mail", db := db, emails := [], insertAttempted := false }
              else
                let espionage : Email :=
                  { subject := "Possible attempted Espionage",
                    recipients := [CHARLIE_EMAIL, DANIEL_EMAIL],
                    body := "The following user (" ++ toString report.user.id ++ " " ++
                      report.user.email ++ ") may have attempted espionage of network: " ++
                      env.showNetwork network }
                finish_parsing mailConfigured sess [espionage] false
                  ("Upload Failed for " ++ source_name) message
            else
              let networks := db.networks.map (fun n =>
                if n.id = network.id then { n with users := n.users ++ [report.user] } else n)
              let sess := Session.commit
                { sess with pending := { sess.pending with networks := networks } }
              let message := "Granted rights for " ++ env.showNetwork network ++ " to " ++
                env.showUser report.user ++ " after parsing " ++ source_name
              finish_parsing mailConfigured sess [] false
                ("Granted Rights from " ++ source_name) message
        | none =>
          let sess := match enrich with
            | .dbError _ => sess.rollback
            | _ => sess
          let graph := enrich.graph
          let upload_failed_text := "Upload Failed for " ++ source_name
          match insert with
          | .integrityError =>
            finish_parsing mailConfigured sess.rollback [] true upload_failed_text
              (integrity_message graph.name graph.version)
          | .operationalError =>
            finish_parsing mailConfigured sess.rollback [] true upload_failed_text
              "Database is locked. Unable to upload."
          | .otherError e =>
            finish_parsing mailConfigured sess.rollback [] true upload_failed_text
              ("Error storing in database: " ++ e)
          | .inserted network =>
            let sess := Session.commit
              { sess with pending := { sess.pending with networks := sess.pending.networks ++ [network] } }
            let graph_summary := env.makeGraphSummary graph
            match fillError with
            | some e =>
              let sess := sess.rollback
              let emails := make_mail mailConfigured report.user.email
                ("Report unsuccessful for " ++ source_name) e []
              { ret := .failCode, db := sess.committed, emails := emails, insertAttempted := true }
            | none =>
              let filled := { env.fillOutReport network report graph_summary with
                time := some env.elapsed }
              let sess := Session.commit
                { sess with pending := { sess.pending with report := filled } }
              let emails := make_mail mailConfigured report.user.email
                ("Successfully uploaded " ++ source_name ++ " (" ++ env.showGraph graph ++ ")")
                (source_name ++ " (" ++ env.showGraph graph ++
                  ") is done parsing. Check the network list page.") []
              { ret := .netId network.id, db := sess.committed, emails := emails,
                insertAttempted := true }

/-- An experiment row (`pybel_web.models.Experiment`) as far as `run_cmpa`
reads and writes it. -/
structure Experiment where
  id : Nat
  user : User
  query_id : Nat
  source_name : String
  permutations : Nat
  result : Option (List Nat)
  completed : Bool
deriving Repr, DecidableEq

/-- Observable result of one run of the scoring task: return value (the
experiment id, or -1), the final committed experiment row, and emails sent. -/
structure CmpaOut where
  ret : Int
  experiment : Experiment
  emails : List Email
deriving Repr, DecidableEq

/-- celery_worker.run_cmpa (the `run-cmpa` task).  The scores computed by the
external `calculate_scores` are an input, as is whether the commit raises. -/
def run_cmpa (env : Env) (mailConfigured : Bool) (experiment : Experiment)
    (scores : List Nat) (commitFails : Bool) : CmpaOut :=
  let experiment_id := experiment.id
  let pending := { experiment with result := some (env.dumps scores), completed := true }
  if commitFails then
    { ret := -1, experiment := experiment, emails := [] }
  else
    let message := "Experiment " ++ toString experiment_id ++ " on query " ++
      toString experiment.query_id ++ " with " ++ experiment.source_name ++ " has completed"
    let emails :=
      if mailConfigured then
        [{ subject := "CMPA Analysis complete", recipients := [experiment.user.email],
           body := message }]
      else []
    { ret := Int.ofNat experiment_id, experiment := pending, emails := emails }

/-- A project row (`pybel_web.models.Project`): name and member networks. -/
structure Project where
  id : Nat
  name : String
  networks : List Network
deriving Repr, DecidableEq

/-- An email carrying one attachment (flask_mail `Message` with `attach`). -/
structure EmailWithAttachment where
  subject : String
  recipients : List String
  body : String
  attachName : String
  attachType : String
  attachContent : String
deriving Repr, DecidableEq

/-- The single side effect performed by `merge_project`: either a `.bel` file
written to disk, or one email sent. -/
inductive MergeEffect where
  | wroteFile (path : String) (graph : Graph)
  | sentEmail (email : EmailWithAttachment)
deriving Repr, DecidableEq

/-- Observable result of one run of the merge task. -/
structure MergeOut where
  ret : Option Nat
  merged : Graph
  effect : MergeEffect
deriving Repr, DecidableEq

/-- celery_worker.merge_project (the `merge-project` task).  The fresh value
produced by `uuid.uuid4()` is an input. -/
def merge_project (env : Env) (mailConfigured : Bool) (user : User) (project : Project)
    (uuid : String) : MergeOut :=
  let graphs := project.networks.map env.asBel
  let graph := env.union graphs
  let graph := { graph with name := uuid, version := "1.0.0" }
  if ¬ mailConfigured then
    let path := env.pybelDataDir ++ "/" ++ graph.name ++ ".bel"
    { ret := none, merged := graph, effect := .wroteFile path graph }
  else
    let s := String.intercalate "\n" (env.toBelLines graph)
    let msg : EmailWithAttachment :=
      { subject := "Merged " ++ project.name ++ " BEL",
        recipients := [user.email],
        body := "The BEL documents from " ++ project.name ++
          " were merged. The resulting BEL script is attached",
        attachName := "merged.bel",
        attachType := "text/plain",
        attachContent := s }
    { ret := some 1, merged := graph, effect := .sentEmail msg }

/-- What a model view does with a requester it deems inaccessible. -/
inductive InaccessibleAction where
  | redirectLogin
  | abort403
deriving Repr, DecidableEq

/-- An administrative model view as registered on the admin scaffold: the
exposed table, its `is_accessible` predicate, and its `inaccessible_callback`
behaviour. -/
structure AdminViewSpec where
  table : String
  isAccessible : User → Bool
  onInaccessible : InaccessibleAction

/-- admin_utils.ModelView.is_accessible / admin_service.ModelView.is_accessible:
the current user is authenticated and an admin. -/
def modelViewIsAccessible (u : User) : Bool :=
  u.isAuthenticated && u.isAdmin

/-- A view derived from the guarded ModelView of admin_utils/admin_service
(all its subclasses inherit `is_accessible` and the login redirect). -/
def guardedView (table : String) : AdminViewSpec :=
  { table := table, isAccessible := modelViewIsAccessible,
    onInaccessible := .redirectLogin }

/-- admin_service.build_admin_service: the registered model views.  The last
entry is its ProjectView, which extends the flask-admin base directly and so
inherits the library default `is_accessible` (always true) and default
inaccessible behaviour (HTTP 403). -/
def adminServiceViews : List AdminViewSpec :=
  [guardedView "User", guardedView "Role", guardedView "Namespace",
   guardedView "Annotation", guardedView "Network", guardedView "Report",
   guardedView "Experiment", guardedView "Query", guardedView "Assembly",
   { table := "Project", isAccessible := fun _ => true, onInaccessible := .abort403 }]

/-- application_utils.FlaskPyBEL._build_admin_service: the registered model
views.  The last entry is the ProjectView of `build_project_view`, whose
`is_accessible` only requires the current user to be logged in. -/
def applicationUtilsViews : List AdminViewSpec :=
  [guardedView "User", guardedView "Role", guardedView "Namespace",
   guardedView "Annotation", guardedView "Network", guardedView "Node",
   guardedView "Edge", guardedView "Citation", guardedView "Evidence",
   guardedView "Author", guardedView "Report", guardedView "Experiment",
   guardedView "Query", guardedView "Assembly", guardedView "EdgeVote",
   guardedView "EdgeComment",
   { table := "Project", isAccessible := fun u => u.isAuthenticated,
     onInaccessible := .redirectLogin }]

/-- Case-insensitive containment of `pat` in `hay` over character lists,
modelling the SQL `ilike` filter with wildcards on both sides. -/
def ilikeContains (pat : List Char) : List Char → Bool
  | [] => pat.isEmpty
  | h :: t => pat.isPrefixOf (h :: t) || ilikeContains pat t

/-- The name filter of the AJAX loader query:
the ilike filter on `Network.name` with the term wrapped in percent signs. -/
def nameMatches (term : String) (n : Network) : Bool :=
  ilikeContains term.toLower.toList n.name.toLower.toList

/-- application_utils.iter_public_networks: the stored networks whose report
exists and is public (`list_recent_networks` modelled as the network table). -/
def iter_public_networks (networks : List Network) : List Network :=
  networks.filter (fun n =>
    match n.report with
    | some r => r.public
    | none => false)

/-- The id set `allowed_network_ids` built by
application_utils.NetworkAjaxModelLoader.get_list for a non-admin user:
owned, shared and public networks, plus the networks owned by users holding
the scai role when the current user has it. -/
def allowed_network_ids (user : User) (owned shared scaiOwned : List Network)
    (networks : List Network) : List Nat :=
  let base := ((owned ++ shared ++ iter_public_networks networks).map Network.id).dedup
  if user.isScai then
    (base ++ scaiOwned.map Network.id).dedup
  else
    base

/-- application_utils.NetworkAjaxModelLoader.get_list.  The results of the
external model methods `get_owned_networks`, `get_shared_networks` and the
networks owned by scai-role users (`owned`, `shared`, `scaiOwned`) are inputs;
the session query is modelled over the network table. -/
def NetworkAjaxModelLoader.get_list (user : User) (owned shared scaiOwned : List Network)
    (networks : List Network) (term : String) (offset limit : Nat) : List Network :=
  let query := networks.filter (nameMatches term)
  if user.isAdmin then
    ((query.drop offset).take limit)
  else
    let allowed := allowed_network_ids user owned shared scaiOwned networks
    if allowed.isEmpty then
      []
    else
      (((query.filter (fun n => allowed.contains n.id)).drop offset).take limit)

/-- A persisted Query row (`pybel_web.models.Query`): selection and
transformation parameters only — it has no stored-result field. -/
structure QueryRec where
  id : Nat
  userId : Nat
  params : QueryParams
deriving Repr, DecidableEq

/-- Modelled from the spec: `pybel_web.models.Query.from_query` (models.py is
not under src/) — builds "a persisted record of network-selection and
graph-transformation parameters" from the query object and the current user. -/
def Query.from_query (params : QueryParams) (userId : Nat) (freshId : Nat) : QueryRec :=
  { id := freshId, userId := userId, params := params }

/-- Modelled from the spec: `pybel_web.models.Query.from_query_args`
(models.py is not under src/) — builds the persisted query record selecting
the single given network for the current user. -/
def Query.from_query_args (networkId : Nat) (userId : Nat) (freshId : Nat) : QueryRec :=
  { id := freshId, userId := userId,
    params := { networkIds := [networkId], pipeline := [] } }

/-- Server-side state touched by the embedded routes: the persisted query
records, the network table, and the next fresh Query id. -/
structure WebState where
  queries : List QueryRec
  networks : List Network
  nextQueryId : Nat
deriving Repr, DecidableEq

/-- HTTP responses produced by the embedded routes. -/
inductive Response where
  | redirect (url : String)
  | abort403 (msg : String)
  | redirectFlash (url : String)
  | comparisonPage (query1Id query2Id : Nat) (data : OverlapData)
  | summaryPage (networkId : Nat) (graph : Graph)
deriving Repr, DecidableEq

/-- main_service.get_pipeline (the `/query/compile` route): builds a Query
record from the submitted form (via the external `query_form_to_dict` and
`pybel_tools.query.Query.from_json`, folded into `env.formToParams`),
persists it, and redirects to the explorer for its id. -/
def get_pipeline (env : Env) (user : User) (form : Form) (st : WebState) :
    Response × WebState :=
  let q := env.formToParams form
  let query := Query.from_query q user.id st.nextQueryId
  let st := { st with queries := st.queries ++ [query], nextQueryId := st.nextQueryId + 1 }
  (.redirect ("/explore/" ++ toString query.id), st)

/-- Modelled from the spec: `pybel_web.utils.safe_get_query` (utils.py is not
under src/) — "looks up both stored queries by id", returning the stored
query record for the id. -/
def safe_get_query (st : WebState) (queryId : Nat) : Option QueryRec :=
  st.queries.find? (fun q => q.id == queryId)

/-- main_service.view_query_comparison (the
`/query/<id>/compare/<id>` route): looks up both stored queries and runs each
of them against the stored networks at request time, rendering the overlap of
the two run results. -/
def view_query_comparison (env : Env) (st : WebState) (query_1_id query_2_id : Nat) :
    Option Response :=
  match safe_get_query st query_1_id, safe_get_query st query_2_id with
  | some query_1, some query_2 =>
    let query_1_result := env.run query_1.params st.networks
    let query_2_result := env.run query_2.params st.networks
    some (.comparisonPage query_1_id query_2_id (env.overlap query_1_result query_2_result))
  | _, _ => none

/-- main_service.view_explore_network (the `/network/<id>/explore` route).
The permitted-id set computed by the external
`get_network_ids_with_permission_helper` is an input. -/
def view_explore_network (permitted : List Nat) (user : User) (network_id : Nat)
    (st : WebState) : Response × WebState :=
  if permitted.contains network_id = false then
    (.abort403 ("Insufficient rights for network " ++ toString network_id), st)
  else
    let query := Query.from_query_args network_id user.id st.nextQueryId
    let st := { st with queries := st.queries ++ [query], nextQueryId := st.nextQueryId + 1 }
    (.redirect ("/explore/" ++ toString query.id), st)

/-- main_service.view_summary (the `/summary/<id>` route): 403 when not
permitted; otherwise loads the network and deserializes its blob, flashing
and redirecting to the network list on any error. -/
def view_summary (env : Env) (permitted : List Nat) (network_id : Nat)
    (st : WebState) : Response × WebState :=
  if permitted.contains network_id = false then
    (.abort403 ("Insufficient rights for network " ++ toString network_id), st)
  else
    match st.networks.find? (fun n => n.id == network_id) with
    | none => (.redirectFlash "/networks", st)
    | some network =>
      match env.fromBytes network.blob with
      | none => (.redirectFlash "/networks", st)
      | some graph => (.summaryPage network_id graph, st)

/-! Concrete fixtures used by witnesses and counterexamples. -/

def exUserA : User :=
  { id := 1, email := "a@example.com", isAuthenticated := true, isAdmin := false,
    isScai := false }

def exUserB : User :=
  { id := 2, email := "b@example.com", isAuthenticated := true, isAdmin := false,
    isScai := false }

def anonUser : User :=
  { id := 0, email := "", isAuthenticated := false, isAdmin := false, isScai := false }

def exReport : Report :=
  { id := 10, user := exUserB, source_name := "doc.bel", message := none,
    infer_origin := false, time := none }

def exNetwork : Network :=
  { id := 7, name := "G", version := "1.0.0", blob := [0, 1],
    report := some { user := exUserA, public := true }, users := [exUserA] }

def exGraph : Graph :=
  { name := "G", version := "1.0.0", document := [("description", "fine")],
    bytes := [9, 9] }

def exDb : Db := { networks := [exNetwork], report := exReport }

/-- Concrete environment: the external functions instantiated with simple
computable stand-ins (the hash is the identity on byte lists, and
serializing a stored network returns its stored blob). -/
def exEnv : Env :=
  { sha1hex := fun l => l,
    toBytesNetwork := fun n => n.blob,
    showNetwork := fun n => "Network " ++ toString n.id,
    showUser := fun u => "User " ++ toString u.id,
    showGraph := fun g => g.name,
    makeGraphSummary := fun g => [("nodes", g.bytes.length)],
    fillOutReport := fun net r _ => { r with message := some ("ok " ++ toString net.id) },
    elapsed := 5,
    dumps := fun l => l,
    union := fun gs =>
      { name := "merged", version := "0", document := [],
        bytes := gs.foldr (fun g acc => g.bytes ++ acc) [] },
    asBel := fun n => { name := n.name, version := n.version, document := [], bytes := n.blob },
    toBelLines := fun g => [g.name, g.version],
    pybelDataDir := "/data",
    formToParams := fun f => { networkIds := f.map (fun kv => kv.snd.length), pipeline := [] },
    run := fun p ns =>
      { name := "result", version := toString p.networkIds.length, document := [],
        bytes := [ns.length] },
    overlap := fun g1 g2 => [("overlap", g1.bytes.length + g2.bytes.length)],
    fromBytes := fun b => some { name := "g", version := "1", document := [], bytes := b } }

/-- Variant environment in which re-serializing a stored network does not
reproduce its stored blob byte for byte. -/
def exEnv2 : Env := { exEnv with toBytesNetwork := fun n => n.blob ++ [0] }

/-- Claim C1, code bug: the network table holds a same-name, same-version
network owned by user A whose stored blob round-trips exactly
(`to_bytes(network) = network.blob`), and user B uploads a graph whose
serialized bytes differ from the stored blob.  The hash comparison in
`async_parser` is between `network.blob` and `to_bytes(network)` — both
functions of the stored network only — so it succeeds and user B is granted
rights, even though the hashes of the stored and uploaded serializations
differ; the uploaded bytes never enter the comparison. -/
theorem asyncParser_dedup_ignores_uploaded_bytes :
    exGraph.bytes ≠ exNetwork.blob ∧
    exEnv.sha1hex exGraph.bytes ≠ exEnv.sha1hex exNetwork.blob ∧
    (asyncParser exEnv true exDb (.success exGraph) (.ok exGraph) .integrityError none).ret =
      .msg "Granted rights for Network 7 to User 2 after parsing doc.bel" ∧
    (asyncParser exEnv true exDb (.success exGraph) (.ok exGraph) .integrityError none).db.networks =
      [{ exNetwork with users := [exUserA, exUserB] }] ∧
    (asyncParser exEnv true exDb (.success exGraph) (.ok exGraph) .integrityError none).insertAttempted
      = false := by
  decide

/-- Claim C2, counterexample: with no mail extension configured, a
connection error during parsing stores and returns the status message but
sends no email notification to the report user. -/
theorem asyncParser_parse_error_sends_no_email_without_mail :
    (asyncParser exEnv false exDb .connectionError (.ok exGraph) .integrityError none).ret =
      .msg "Connection to resource could not be established." ∧
    (asyncParser exEnv false exDb .connectionError (.ok exGraph) .integrityError none).emails
      = [] := by
  decide

/-- Claim C2 (amended): every exception raised while parsing the document is
mapped to a human-readable status message stored in the report message field
and committed, the task returns that message instead of propagating the
exception, and an email notification is sent to the report user exactly when
the mail extension is configured. -/
theorem asyncParser_parse_exception_handled (env : Env) (mail : Bool) (db : Db)
    (parse : ParseOutcome) (enrich : EnrichOutcome) (insert : InsertOutcome)
    (fillError : Option String) (hp : ∀ g, parse ≠ .success g) :
    ∃ m, (asyncParser env mail db parse enrich insert fillError).ret = .msg m ∧
      (asyncParser env mail db parse enrich insert fillError).db.report.message = some m ∧
      (asyncParser env mail db parse enrich insert fillError).emails =
        (if mail then
          [{ subject := "Parsing Failed for " ++ db.report.source_name,
             recipients := [db.report.user.email], body := m }]
         else []) := by
  cases parse with
  | success g => exact absurd rfl (hp g)
  | connectionError => exact ⟨_, rfl, rfl, by cases mail <;> rfl⟩
  | inconsistentDefinition d ln => exact ⟨_, rfl, rfl, by cases mail <;> rfl⟩
  | otherError e => exact ⟨_, rfl, rfl, by cases mail <;> rfl⟩

/-- Witness for the amended claim C2 at a concrete input. -/
theorem asyncParser_parse_exception_handled_witness :
    ∃ m, (asyncParser exEnv true exDb .connectionError (.ok exGraph) .integrityError none).ret
        = .msg m ∧
      (asyncParser exEnv true exDb .connectionError (.ok exGraph) .integrityError none).db.report.message
        = some m ∧
      (asyncParser exEnv true exDb .connectionError (.ok exGraph) .integrityError none).emails =
        (if true then
          [{ subject := "Parsing Failed for " ++ exDb.report.source_name,
             recipients := [exDb.report.user.email], body := m }]
         else []) :=
  asyncParser_parse_exception_handled exEnv true exDb .connectionError (.ok exGraph)
    .integrityError none (fun _ h => ParseOutcome.noConfusion h)

/-- Claim C9: a successfully parsed graph whose name is missing, whose
version is missing, or whose document metadata still carries a default
placeholder value is rejected before any insertion is attempted: the network
table is untouched, the insert call is never reached, and the report message
is set to the specific rejection reason which is also returned. -/
theorem asyncParser_rejects_default_metadata (env : Env) (mail : Bool) (db : Db)
    (g : Graph) (enrich : EnrichOutcome) (insert : InsertOutcome) (fillError : Option String)
    (h : g.name = "" ∨ g.version = "" ∨ (g.document.filter isDumbDefault).isEmpty = false) :
    (asyncParser env mail db (.success g) enrich insert fillError).insertAttempted = false ∧
    (asyncParser env mail db (.success g) enrich insert fillError).db.networks = db.networks ∧
    ∃ m, (asyncParser env mail db (.success g) enrich insert fillError).ret = .msg m ∧
      (asyncParser env mail db (.success g) enrich insert fillError).db.report.message = some m ∧
      m = (if g.name = "" then
            "Parsing failed for " ++ db.report.source_name ++
              " because SET DOCUMENT Name was missing."
          else if g.version = "" then
            "Parsing failed for " ++ db.report.source_name ++
              " because SET DOCUMENT Version was missing."
          else
            db.report.source_name ++ " was rejected because it has \"default\" metadata: " ++
              renderProblem (g.document.filter isDumbDefault)) := by
  by_cases h1 : g.name = ""
  · simp [asyncParser, finish_parsing, make_mail, Session.commit, Session.setMessage, h1]
  · by_cases h2 : g.version = ""
    · simp [asyncParser, finish_parsing, make_mail, Session.commit, Session.setMessage, h1, h2]
    · have h3 : (g.document.filter isDumbDefault).isEmpty = false := by
        rcases h with h | h | h
        · exact absurd h h1
        · exact absurd h h2
        · exact h
      simp [asyncParser, finish_parsing, make_mail, Session.commit, Session.setMessage,
        h1, h2, h3]

/-- Witness for claim C9 at a concrete input: a graph still carrying the
default description placeholder. -/
theorem asyncParser_rejects_default_metadata_witness :
    (asyncParser exEnv true exDb
        (.success { exGraph with document := [("description", "Document description")] })
        (.ok exGraph) .integrityError none).insertAttempted = false ∧
    (asyncParser exEnv true exDb
        (.success { exGraph with document := [("description", "Document description")] })
        (.ok exGraph) .integrityError none).db.networks = exDb.networks ∧
    ∃ m, (asyncParser exEnv true exDb
        (.success { exGraph with document := [("description", "Document description")] })
        (.ok exGraph) .integrityError none).ret = .msg m ∧
      (asyncParser exEnv true exDb
        (.success { exGraph with document := [("description", "Document description")] })
        (.ok exGraph) .integrityError none).db.report.message = some m ∧
      m = (if ({ exGraph with document := [("description", "Document description")] } : Graph).name
            = "" then
            "Parsing failed for " ++ exDb.report.source_name ++
              " because SET DOCUMENT Name was missing."
          else if ({ exGraph with document := [("description", "Document description")] } : Graph).version
            = "" then
            "Parsing failed for " ++ exDb.report.source_name ++
              " because SET DOCUMENT Version was missing."
          else
            exDb.report.source_name ++ " was rejected because it has \"default\" metadata: " ++
              renderProblem (({ exGraph with
                document := [("description", "Document description")] } : Graph).document.filter
                  isDumbDefault)) :=
  asyncParser_rejects_default_metadata exEnv true exDb
    { exGraph with document := [("description", "Document description")] }
    (.ok exGraph) .integrityError none (Or.inr (Or.inr (by decide)))

/-- Claim C4, counterexample: when a same-name, same-version network of a
different user is found, the stored and re-serialized hashes differ, and no
mail extension is configured, the task raises an uncaught KeyError while
sending the espionage notification: it terminates without storing any
message on the report and without committing anything. -/
theorem asyncParser_espionage_path_skips_report :
    asyncParser exEnv2 false exDb (.success exGraph) (.ok exGraph) .integrityError none =
      { ret := .exn "KeyError: mail", db := exDb, emails := [], insertAttempted := false } := by
  decide

/-- Claim C4 (amended): for an existing report, every terminating path of the
parse task either returns a status message that is stored on the committed
report, or returns the id of the inserted network with the report filled out
from the graph summary and stamped with the elapsed time, or returns -1
after rollback with the committed report unchanged, or propagates an uncaught
exception (the espionage notification with mail unconfigured, or a stored
network lacking its report relationship) leaving the database untouched and
no email sent. -/
theorem asyncParser_report_outcome (env : Env) (mail : Bool) (db : Db)
    (parse : ParseOutcome) (enrich : EnrichOutcome) (insert : InsertOutcome)
    (fillError : Option String) :
    (∃ m, (asyncParser env mail db parse enrich insert fillError).ret = .msg m ∧
      (asyncParser env mail db parse enrich insert fillError).db.report.message = some m) ∨
    (∃ net, insert = .inserted net ∧
      (asyncParser env mail db parse enrich insert fillError).ret = .netId net.id ∧
      (asyncParser env mail db parse enrich insert fillError).db.report =
        { env.fillOutReport net db.report (env.makeGraphSummary enrich.graph) with
          time := some env.elapsed }) ∨
    ((asyncParser env mail db parse enrich insert fillError).ret = .failCode ∧
      (asyncParser env mail db parse enrich insert fillError).db.report = db.report) ∨
    (∃ e, (asyncParser env mail db parse enrich insert fillError).ret = .exn e ∧
      (asyncParser env mail db parse enrich insert fillError).db = db ∧
      (asyncParser env mail db parse enrich insert fillError).emails = []) := by
  cases parse with
  | connectionError => exact Or.inl ⟨_, rfl, rfl⟩
  | inconsistentDefinition d ln => exact Or.inl ⟨_, rfl, rfl⟩
  | otherError e => exact Or.inl ⟨_, rfl, rfl⟩
  | success g =>
    by_cases h1 : g.name = ""
    · left
      simp only [asyncParser, if_pos h1]
      exact ⟨_, rfl, rfl⟩
    · by_cases h2 : g.version = ""
      · left
        simp only [asyncParser, if_neg h1, if_pos h2]
        exact ⟨_, rfl, rfl⟩
      · cases h3 : (g.document.filter isDumbDefault).isEmpty with
        | false =>
          left
          simp only [asyncParser, if_neg h1, if_neg h2, h3, reduceIte]
          exact ⟨_, rfl, rfl⟩
        | true =>
          cases hfind : db.networks.find?
              (fun n => n.name == g.name && n.version == g.version) with
          | some network =>
            cases hrep : network.report with
            | none =>
              right; right; right
              simp only [asyncParser, if_neg h1, if_neg h2, h3, reduceIte, hfind, hrep]
              exact ⟨_, rfl, rfl, rfl⟩
            | some nrep =>
              by_cases h4 : nrep.user = db.report.user
              · left
                simp only [asyncParser, if_neg h1, if_neg h2, h3, reduceIte, hfind, hrep,
                  if_pos h4]
                exact ⟨_, rfl, rfl⟩
              · by_cases h5 : env.sha1hex network.blob = env.sha1hex (env.toBytesNetwork network)
                · left
                  simp only [asyncParser, if_neg h1, if_neg h2, h3, reduceIte, hfind, hrep,
                    if_neg h4, if_neg (not_not_intro h5)]
                  exact ⟨_, rfl, rfl⟩
                · cases mail with
                  | false =>
                    right; right; right
                    simp only [asyncParser, if_neg h1, if_neg h2, h3, reduceIte, hfind,
                      hrep, if_neg h4, if_pos h5]
                    exact ⟨_, rfl, rfl, rfl⟩
                  | true =>
                    left
                    simp only [asyncParser, if_neg h1, if_neg h2, h3, reduceIte, hfind,
                      hrep, if_neg h4, if_pos h5]
                    exact ⟨_, rfl, rfl⟩
          | none =>
            cases insert with
            | integrityError =>
              left
              simp only [asyncParser, if_neg h1, if_neg h2, h3, reduceIte, hfind]
              cases enrich <;> exact ⟨_, rfl, rfl⟩
            | operationalError =>
              left
              simp only [asyncParser, if_neg h1, if_neg h2, h3, reduceIte, hfind]
              cases enrich <;> exact ⟨_, rfl, rfl⟩
            | otherError e =>
              left
              simp only [asyncParser, if_neg h1, if_neg h2, h3, reduceIte, hfind]
              cases enrich <;> exact ⟨_, rfl, rfl⟩
            | inserted net =>
              cases fillError with
              | some e =>
                right; right; left
                simp only [asyncParser, if_neg h1, if_neg h2, h3, reduceIte, hfind]
                cases enrich <;> exact ⟨rfl, rfl⟩
              | none =>
                right; left
                refine ⟨net, rfl, ?_⟩
                simp only [asyncParser, if_neg h1, if_neg h2, h3, reduceIte, hfind]
                cases enrich <;> exact ⟨rfl, rfl⟩

def exProject : Project :=
  { id := 3, name := "proj", networks := [exNetwork] }

/-- Claim C6: the merge task delegates the merge to the external union over
the project networks, renames the result to the fresh UUID with version
1.0.0, and performs exactly one of two side effects — with no mail extension
it writes the merged document to a .bel file and returns None, otherwise it
emails it to the requesting user as an attachment named merged.bel and
returns 1. -/
theorem merge_project_spec (env : Env) (mail : Bool) (user : User) (project : Project)
    (uuid : String) :
    (merge_project env mail user project uuid).merged =
      { env.union (project.networks.map env.asBel) with name := uuid, version := "1.0.0" } ∧
    (mail = false →
      (merge_project env mail user project uuid).ret = none ∧
      (merge_project env mail user project uuid).effect =
        .wroteFile (env.pybelDataDir ++ "/" ++ uuid ++ ".bel")
          (merge_project env mail user project uuid).merged) ∧
    (mail = true →
      (merge_project env mail user project uuid).ret = some 1 ∧
      (merge_project env mail user project uuid).effect =
        .sentEmail
          { subject := "Merged " ++ project.name ++ " BEL",
            recipients := [user.email],
            body := "The BEL documents from " ++ project.name ++
              " were merged. The resulting BEL script is attached",
            attachName := "merged.bel",
            attachType := "text/plain",
            attachContent := String.intercalate "\n"
              (env.toBelLines (merge_project env mail user project uuid).merged) }) := by
  cases mail <;> exact ⟨rfl, fun h => by simp_all [merge_project], fun h => by
    simp_all [merge_project]⟩

/-- Witness for claim C6 at a concrete input (mail configured). -/
theorem merge_project_spec_witness :
    (merge_project exEnv true exUserA exProject "uid-1").merged =
      { exEnv.union (exProject.networks.map exEnv.asBel) with
        name := "uid-1", version := "1.0.0" } ∧
    (true = false →
      (merge_project exEnv true exUserA exProject "uid-1").ret = none ∧
      (merge_project exEnv true exUserA exProject "uid-1").effect =
        .wroteFile (exEnv.pybelDataDir ++ "/" ++ "uid-1" ++ ".bel")
          (merge_project exEnv true exUserA exProject "uid-1").merged) ∧
    (true = true →
      (merge_project exEnv true exUserA exProject "uid-1").ret = some 1 ∧
      (merge_project exEnv true exUserA exProject "uid-1").effect =
        .sentEmail
          { subject := "Merged " ++ exProject.name ++ " BEL",
            recipients := [exUserA.email],
            body := "The BEL documents from " ++ exProject.name ++
              " were merged. The resulting BEL script is attached",
            attachName := "merged.bel",
            attachType := "text/plain",
            attachContent := String.intercalate "\n"
              (exEnv.toBelLines (merge_project exEnv true exUserA exProject "uid-1").merged) }) :=
  merge_project_spec exEnv true exUserA exProject "uid-1"

def exExperiment : Experiment :=
  { id := 20, user := exUserB, query_id := 4, source_name := "data.csv",
    permutations := 100, result := none, completed := false }

/-- Claim C7: the scoring task stores the pickled scores in the experiment
result field and sets the completed flag before committing; if the commit
raises it rolls back and returns -1 without sending email, and otherwise it
notifies the experiment user by email exactly when mail is configured and
returns the experiment id. -/
theorem run_cmpa_spec (env : Env) (mail : Bool) (experiment : Experiment)
    (scores : List Nat) (commitFails : Bool) :
    (commitFails = true →
      (run_cmpa env mail experiment scores commitFails).ret = -1 ∧
      (run_cmpa env mail experiment scores commitFails).emails = [] ∧
      (run_cmpa env mail experiment scores commitFails).experiment = experiment) ∧
    (commitFails = false →
      (run_cmpa env mail experiment scores commitFails).ret = Int.ofNat experiment.id ∧
      (run_cmpa env mail experiment scores commitFails).experiment.result =
        some (env.dumps scores) ∧
      (run_cmpa env mail experiment scores commitFails).experiment.completed = true ∧
      (run_cmpa env mail experiment scores commitFails).emails =
        (if mail then
          [{ subject := "CMPA Analysis complete", recipients := [experiment.user.email],
             body := "Experiment " ++ toString experiment.id ++ " on query " ++
               toString experiment.query_id ++ " with " ++ experiment.source_name ++
               " has completed" }]
         else [])) := by
  cases commitFails <;>
    exact ⟨fun h => by simp_all [run_cmpa], fun h => by cases mail <;> simp_all [run_cmpa]⟩

/-- Witness for claim C7 at a concrete input (commit succeeds, mail
configured). -/
theorem run_cmpa_spec_witness :
    (false = true →
      (run_cmpa exEnv true exExperiment [3] false).ret = -1 ∧
      (run_cmpa exEnv true exExperiment [3] false).emails = [] ∧
      (run_cmpa exEnv true exExperiment [3] false).experiment = exExperiment) ∧
    (false = false →
      (run_cmpa exEnv true exExperiment [3] false).ret = Int.ofNat exExperiment.id ∧
      (run_cmpa exEnv true exExperiment [3] false).experiment.result =
        some (exEnv.dumps [3]) ∧
      (run_cmpa exEnv true exExperiment [3] false).experiment.completed = true ∧
      (run_cmpa exEnv true exExperiment [3] false).emails =
        (if true then
          [{ subject := "CMPA Analysis complete", recipients := [exExperiment.user.email],
             body := "Experiment " ++ toString exExperiment.id ++ " on query " ++
               toString exExperiment.query_id ++ " with " ++ exExperiment.source_name ++
               " has completed" }]
         else [])) :=
  run_cmpa_spec exEnv true exExperiment [3] false

/-- Claim C3, counterexample: the registered admin views accessible to an
unauthenticated non-admin requester under admin_service, and to an
authenticated non-admin under application_utils, are exactly the Project
views — so not every administrative model view is guarded by the
authenticated-admin predicate with a login redirect. -/
theorem project_view_accessible_without_admin :
    ((adminServiceViews.filter (fun v => v.isAccessible anonUser)).map
      (fun v => v.table)) = ["Project"] ∧
    ((applicationUtilsViews.filter (fun v => v.isAccessible exUserA)).map
      (fun v => v.table)) = ["Project"] := by
  decide

/-- Claim C3 (amended): every administrative model view except the Project
view is guarded by the access-control predicate — accessible exactly when the
current user is authenticated and an admin, with other requesters redirected
to the login page; the Project views instead admit any requester
(admin_service, falling back to the scaffold default of always-accessible
with a 403 on the callback) or any authenticated user (application_utils). -/
theorem admin_views_guarded_except_project (u : User) :
    ((adminServiceViews ++ applicationUtilsViews).all (fun v =>
      (v.table == "Project") ||
      ((v.isAccessible u == (u.isAuthenticated && u.isAdmin)) &&
        (v.onInaccessible == InaccessibleAction.redirectLogin)))) = true ∧
    (∀ v ∈ adminServiceViews, v.table = "Project" →
      v.isAccessible u = true ∧ v.onInaccessible = .abort403) ∧
    (∀ v ∈ applicationUtilsViews, v.table = "Project" →
      v.isAccessible u = u.isAuthenticated ∧ v.onInaccessible = .redirectLogin) := by
  refine ⟨?_, ?_, ?_⟩
  · simp [adminServiceViews, applicationUtilsViews, guardedView, modelViewIsAccessible]
  · intro v hv htab
    fin_cases hv <;> simp_all [adminServiceViews, guardedView]
  · intro v hv htab
    fin_cases hv <;> simp_all [applicationUtilsViews, guardedView]

/-- Witness for the amended claim C3 at a concrete user. -/
theorem admin_views_guarded_except_project_witness :
    ((adminServiceViews ++ applicationUtilsViews).all (fun v =>
      (v.table == "Project") ||
      ((v.isAccessible anonUser == (anonUser.isAuthenticated && anonUser.isAdmin)) &&
        (v.onInaccessible == InaccessibleAction.redirectLogin)))) = true ∧
    (∀ v ∈ adminServiceViews, v.table = "Project" →
      v.isAccessible anonUser = true ∧ v.onInaccessible = .abort403) ∧
    (∀ v ∈ applicationUtilsViews, v.table = "Project" →
      v.isAccessible anonUser = anonUser.isAuthenticated ∧
        v.onInaccessible = .redirectLogin) :=
  admin_views_guarded_except_project anonUser

def exQuery1 : QueryRec :=
  { id := 1, userId := 1, params := { networkIds := [7], pipeline := [] } }

def exQuery2 : QueryRec :=
  { id := 2, userId := 2, params := { networkIds := [7], pipeline := ["infer"] } }

def exWebState : WebState :=
  { queries := [exQuery1, exQuery2], networks := [exNetwork], nextQueryId := 3 }

/-- Claim C5: the compile route persists a new Query record built from the
submitted form before redirecting to the explorer for its id, and the
query-comparison route looks up both stored queries by id and runs each of
them against the stored networks at request time, rendering the overlap of
the two freshly computed results (the Query record stores parameters only —
it has no stored-result field to read). -/
theorem query_persisted_and_rerun (env : Env) (user : User) (form : Form)
    (st st2 : WebState) (q1 q2 : QueryRec) (id1 id2 : Nat)
    (h1 : safe_get_query st2 id1 = some q1) (h2 : safe_get_query st2 id2 = some q2) :
    (get_pipeline env user form st).2.queries =
      st.queries ++ [Query.from_query (env.formToParams form) user.id st.nextQueryId] ∧
    (get_pipeline env user form st).1 =
      .redirect ("/explore/" ++ toString st.nextQueryId) ∧
    view_query_comparison env st2 id1 id2 =
      some (.comparisonPage id1 id2
        (env.overlap (env.run q1.params st2.networks) (env.run q2.params st2.networks))) := by
  refine ⟨rfl, rfl, ?_⟩
  simp [view_query_comparison, h1, h2]

/-- Witness for claim C5 at a concrete state holding two stored queries. -/
theorem query_persisted_and_rerun_witness :
    (get_pipeline exEnv exUserA [("seed", "7")] exWebState).2.queries =
      exWebState.queries ++
        [Query.from_query (exEnv.formToParams [("seed", "7")]) exUserA.id
          exWebState.nextQueryId] ∧
    (get_pipeline exEnv exUserA [("seed", "7")] exWebState).1 =
      .redirect ("/explore/" ++ toString exWebState.nextQueryId) ∧
    view_query_comparison exEnv exWebState 1 2 =
      some (.comparisonPage 1 2
        (exEnv.overlap (exEnv.run exQuery1.params exWebState.networks)
          (exEnv.run exQuery2.params exWebState.networks))) :=
  query_persisted_and_rerun exEnv exUserA [("seed", "7")] exWebState exWebState
    exQuery1 exQuery2 1 2 (by decide) (by decide)

/-- Claim C10: whenever the network id is not in the permitted id set for the
current user, the explore-network and summary routes both return a 403
response and leave the server state — stored queries and networks — entirely
unchanged; in particular no Query record is created. -/
theorem routes_forbid_unpermitted_network (env : Env) (permitted : List Nat) (user : User)
    (network_id : Nat) (st : WebState) (h : permitted.contains network_id = false) :
    view_explore_network permitted user network_id st =
      (.abort403 ("Insufficient rights for network " ++ toString network_id), st) ∧
    view_summary env permitted network_id st =
      (.abort403 ("Insufficient rights for network " ++ toString network_id), st) := by
  constructor <;> simp only [view_explore_network, view_summary, h, reduceIte]

/-- Witness for claim C10 at a concrete unpermitted network id. -/
theorem routes_forbid_unpermitted_network_witness :
    view_explore_network [1, 2] exUserA 7 exWebState =
      (.abort403 ("Insufficient rights for network " ++ toString 7), exWebState) ∧
    view_summary exEnv [1, 2] 7 exWebState =
      (.abort403 ("Insufficient rights for network " ++ toString 7), exWebState) :=
  routes_forbid_unpermitted_network exEnv [1, 2] exUserA 7 exWebState (by decide)

/-- Claim C8: for a non-admin user every network returned by the AJAX
loader is drawn from the allowed id set (owned, shared, public, and networks
owned by scai-role users when the user has the scai role), and when that
allowed set is empty the loader returns the empty list. -/
theorem get_list_respects_permissions (user : User)
    (owned shared scaiOwned networks : List Network) (term : String) (offset limit : Nat)
    (hadmin : user.isAdmin = false) :
    (∀ n ∈ NetworkAjaxModelLoader.get_list user owned shared scaiOwned networks term
        offset limit,
      (allowed_network_ids user owned shared scaiOwned networks).contains n.id = true) ∧
    (allowed_network_ids user owned shared scaiOwned networks = [] →
      NetworkAjaxModelLoader.get_list user owned shared scaiOwned networks term offset limit
        = []) := by
  unfold NetworkAjaxModelLoader.get_list
  simp only [hadmin, Bool.false_eq_true, if_false]
  cases he : (allowed_network_ids user owned shared scaiOwned networks).isEmpty with
  | true =>
    refine ⟨?_, ?_⟩ <;> simp [he]
  | false =>
    simp only [Bool.false_eq_true, if_false]
    constructor
    · intro n hn
      have hdrop := List.take_subset _ _ hn
      have hfilter := List.drop_subset _ _ hdrop
      exact (List.mem_filter.mp hfilter).2
    · intro hempty
      rw [hempty] at he
      exact absurd he (by simp)

/-- Witness for claim C8: a non-admin owner sees exactly their own public
network. -/
theorem get_list_respects_permissions_witness :
    (∀ n ∈ NetworkAjaxModelLoader.get_list exUserA [exNetwork] [] [] [exNetwork] "g" 0 10,
      (allowed_network_ids exUserA [exNetwork] [] [] [exNetwork]).contains n.id = true) ∧
    (allowed_network_ids exUserA [exNetwork] [] [] [exNetwork] = [] →
      NetworkAjaxModelLoader.get_list exUserA [exNetwork] [] [] [exNetwork] "g" 0 10 = []) :=
  get_list_respects_permissions exUserA [exNetwork] [] [] [exNetwork] "g" 0 10 (by decide)

end PyBELWeb
